import Mathlib

/-!
Shallow embedding of `src/FastAPI_EDX.py`: a small FastAPI service with three
POST endpoints.  The core pipeline (the only decision logic) is

  * `Data_File.file_validation` — path must not contain the substring "invalid";
  * `Data_File.df`              — read a `.txt` file as tab-delimited data,
                                  wrapping any failure in an HTTP 500 error;
  * `validation_of_incoming_txt_file` — the `validation/body` handler: write the
    request body to a fresh temporary file, validate the path, and clean the
    file up in a `finally` block;
  * `process_txt_data` / `process_txt_data_table` — constant-template endpoints.

Machine-level effects are made explicit: the filesystem is an association list
from paths to byte contents, Python exceptions are a small inductive type, and
a handler finishes either by returning a JSON value or by raising an exception
(which FastAPI would then turn into a transport-level 500 response).

A central fact of the source is that the dictionary literals returned by the
validation handler use the identifier `null` (lines 145, 146 and 155 of the
Python file), which is not bound anywhere in the module: evaluating any of
those literals raises `NameError("name 'null' is not defined")` at run time.
The embedding reproduces this faithfully.
-/

namespace FastAPIEDX

/-- Byte buffers (Python `bytes`) as lists of byte values. -/
abbrev Bytes := List Nat

/-- The filesystem visible to the service: an association list from file paths
to byte contents.  The head entry for a path shadows older ones, and writing
removes stale entries, so each path has at most one live content. -/
abbrev FS := List (String × Bytes)

/-- Remove every entry stored under path `p` (the effect of `os.unlink` when
the file exists). -/
def FS.remove (fs : FS) (p : String) : FS :=
  fs.filter (fun e => !(e.1 == p))

/-- Create/overwrite the file at path `p` with content `c` (the effect of
`tempfile.NamedTemporaryFile` creation followed by `temp_file.write`). -/
def FS.write (fs : FS) (p : String) (c : Bytes) : FS :=
  (p, c) :: FS.remove fs p

/-- Does a file exist at path `p`? -/
def FS.hasFile (fs : FS) (p : String) : Bool :=
  fs.any (fun e => e.1 == p)

/-- Read the content stored at path `p`, if any (the byte-level read step that
underlies `pd.read_csv`). -/
def FS.readFile (fs : FS) (p : String) : Option Bytes :=
  (fs.find? (fun e => e.1 == p)).map (fun e => e.2)

/-- The Python exceptions that can arise in this module. -/
inductive PyExc where
  /-- `NameError`: an unbound identifier was evaluated; the payload is the
  identifier's name. -/
  | nameError (ident : String)
  /-- `FileNotFoundError`, raised by `os.unlink` on a missing path. -/
  | fileNotFoundError
  /-- A plain `Exception(msg)` as raised on line 149 of the source. -/
  | exception (msg : String)
  /-- `fastapi.HTTPException(status_code, detail)`. -/
  | httpException (statusCode : Nat) (detail : String)
deriving DecidableEq

/-- How a Python request handler finishes: either a JSON-serialisable value is
returned, or an exception escapes (FastAPI then produces a transport-level
error response). -/
inductive Outcome where
  | returned (v : String)
  | raised (e : PyExc)
deriving DecidableEq

/-! ### Substring containment, modelling Python's `"needle" in haystack` -/

/-- Does `n` occur at the very start of `h`?  (Helper for `hasSub`.) -/
def startsWithL : List Char → List Char → Bool
  | [], _ => true
  | _ :: _, [] => false
  | a :: as, b :: bs => a == b && startsWithL as bs

/-- Does `n` occur as a contiguous substring of `h`?  This is Python's
`n in h` on strings, at the character-list level. -/
def hasSub (n : List Char) : List Char → Bool
  | [] => startsWithL n []
  | c :: t => startsWithL n (c :: t) || hasSub n t

/-! ### The `Data_File` class -/

/-- The hardcoded forbidden marker of `Data_File.file_validation`. -/
def forbidden_marker : String := "invalid"

/-- Line 43-46 of the source: `file_validation` returns `False` when the
string "invalid" occurs in `self.file_path`, and `True` otherwise.  It is a
pure function of the path: it never opens the file, so it depends on no state
and mutates none. -/
def Data_File.file_validation (file_path : String) : Bool :=
  if hasSub forbidden_marker.toList file_path.toList then false else true

/-- The expected suffix marker checked by `Data_File.df`. -/
def txt_suffix : String := ".txt"

/-- Python's `s.endswith(sfx)` at the character-list level. -/
def strEndsWith (s sfx : String) : Bool :=
  List.isSuffixOf sfx.toList s.toList

/-- A parsed tab-delimited table: a header row of column names followed by the
data rows, all kept as raw byte fields. -/
structure Table where
  header : List Bytes
  rows : List (List Bytes)
deriving DecidableEq

/-- Split a byte buffer at every occurrence of the byte `sep`. -/
def splitOnByte (sep : Nat) : Bytes → List Bytes
  | [] => [[]]
  | c :: t =>
    match splitOnByte sep t with
    | [] => if c == sep then [[], []] else [[c]]
    | cur :: rest =>
      if c == sep then [] :: cur :: rest else (c :: cur) :: rest

/-- Model of `pd.read_csv(path, delimiter=chr(9))` applied to raw file bytes:
lines are separated by byte 10, fields by byte 9 (the delimiter passed in the
source), blank lines are skipped, the first remaining line is the header, an
empty file is an `EmptyDataError`, a row wider than the header is a tokenizer
error, and a narrower row is padded (pandas fills missing fields with NaN,
modelled as empty fields).  The result is the message of the raised pandas
exception on failure, and the parsed table on success. -/
def parseTSV (content : Bytes) : Except String Table :=
  let lines := (splitOnByte 10 content).filter (fun l => !(l.isEmpty))
  match lines with
  | [] => Except.error "No columns to parse from file"
  | hd :: tl =>
    let header := splitOnByte 9 hd
    let rows := tl.map (splitOnByte 9)
    if rows.all (fun r => r.length ≤ header.length) then
      Except.ok
        { header := header
          rows := rows.map (fun r => r ++ List.replicate (header.length - r.length) []) }
    else
      Except.error "Error tokenizing data: row with too many fields"

/-- The message of the `ValueError` raised on line 54 of the source. -/
def value_error_text : String := "File is not a .txt file"

/-- The `try` block of `Data_File.df` (lines 50-54): paths ending in `.txt`
are read and parsed as tab-delimited text (a missing file makes the read raise
`FileNotFoundError`, whose message carries the path); any other path raises
`ValueError("File is not a .txt file")`.  The error branch carries the `str`
of the raised exception, which the `except` clause below interpolates. -/
def Data_File.dfTry (file_path : String) (fs : FS) : Except String Table :=
  if strEndsWith file_path txt_suffix then
    match FS.readFile fs file_path with
    | none =>
      Except.error ("[Errno 2] No such file or directory: " ++ file_path)
    | some content => parseTSV content
  else
    Except.error value_error_text

/-- Lines 49-57 of the source: `Data_File.df` runs the `try` block and, on any
exception `e`, logs it and raises
`HTTPException(status_code=500, detail=f"Error reading file: \x7be\x7d")` —
note that the user-visible `detail` interpolates the internal exception text.
An `HTTPException` escaping a handler is rendered by FastAPI as a
transport-level response with that status code, here 500. -/
def Data_File.df (file_path : String) (fs : FS) : Except PyExc Table :=
  match Data_File.dfTry file_path fs with
  | Except.ok t => Except.ok t
  | Except.error msg =>
    Except.error (PyExc.httpException 500 ("Error reading file: " ++ msg))

/-! ### JSON values and the two fixed templates -/

/-- JSON-serialisable values, with numbers as exact rationals (every numeric
literal in the source is a decimal literal, and no arithmetic is performed on
them, so rationals represent them without loss). -/
inductive Json where
  | null
  | bool (b : Bool)
  | num (q : ℚ)
  | str (s : String)
  | arr (elems : List Json)
  | obj (fields : List (String × Json))

/-- Lines 61-86 of the source: the module-level `template_data` dictionary
returned verbatim by the `databasevaluesbody` endpoint (`None` is `Json.null`,
`True` is `Json.bool true`). -/
def template_data : Json :=
  Json.obj
    [("Compositions", Json.arr
      [Json.obj
        [("CompositionElements", Json.arr
          [Json.obj
            [("CompoundIndex", Json.num 0), ("ElementName", Json.str "V"),
             ("ValueAbsolute", Json.null),
             ("ValuePercent", Json.num (31.299999237906547 : ℚ))],
           Json.obj
            [("CompoundIndex", Json.num 0), ("ElementName", Json.str "Mn"),
             ("ValueAbsolute", Json.null),
             ("ValuePercent", Json.num (2.700000047683716 : ℚ))],
           Json.obj
            [("CompoundIndex", Json.num 0), ("ElementName", Json.str "Co"),
             ("ValueAbsolute", Json.null),
             ("ValuePercent", Json.num (22.600000381469727 : ℚ))],
           Json.obj
            [("CompoundIndex", Json.num 0), ("ElementName", Json.str "Ni"),
             ("ValueAbsolute", Json.null),
             ("ValuePercent", Json.num 6)],
           Json.obj
            [("CompoundIndex", Json.num 0), ("ElementName", Json.str "Ho"),
             ("ValueAbsolute", Json.null),
             ("ValuePercent", Json.num (37.400001525878906 : ℚ))]]),
         ("DeletePreviousProperties", Json.bool true),
         ("Properties", Json.arr
          [Json.obj
            [("PropertyID", Json.num 0), ("Type", Json.num 2),
             ("Name", Json.str "Measurement Area"), ("Value", Json.num 1),
             ("ValueEpsilon", Json.null), ("SortCode", Json.num 10),
             ("Row", Json.null), ("Comment", Json.null)]])]])]

/-- Lines 179-196 of the source: the `table_data` dictionary built (from
literals only) on every call of the `/tablebody` handler. -/
def table_data : Json :=
  Json.obj
    [("DataTable", Json.arr
      [Json.obj
        [("Spectrum", Json.str "Spektrum 1 \x7b1\x7d"),
         ("In stats.", Json.str "Yes"),
         ("X (mm)", Json.num (-44.6 : ℚ)),
         ("Y (mm)", Json.num (-40.3 : ℚ)),
         ("C", Json.num (80.36562 : ℚ)),
         ("O", Json.num (17.7799 : ℚ)),
         ("Si", Json.num (0.331076 : ℚ)),
         ("V", Json.num (-0.3328189 : ℚ)),
         ("Mn", Json.num (0.09434319 : ℚ)),
         ("Co", Json.num (1.12593 : ℚ)),
         ("Ni", Json.num (1.070188 : ℚ)),
         ("Ho", Json.num (-0.4342265 : ℚ))]])]

/-- Lines 91-107 of the source: the `databasevaluesbody` handler.  The Python
function takes no parameter at all, so whatever request body arrives (modelled
as the `_body` argument) is ignored and the module-level template is
returned. -/
def process_txt_data (_body : Bytes) : Json :=
  template_data

/-- Lines 162-198 of the source: the `/tablebody` handler.  It receives the
request but never reads it; it rebuilds `table_data` from literals and returns
`\x7b"data": table_data\x7d` on every call. -/
def process_txt_data_table (_body : Bytes) : Json :=
  Json.obj [("data", table_data)]

/-! ### The `validation/body` handler -/

/-- Python's `os.unlink(p)`: removes the file at `p`, raising
`FileNotFoundError` when no file exists there.  It is NOT a guarded no-op. -/
def osUnlink (fs : FS) (p : String) : Except PyExc FS :=
  if FS.hasFile fs p then Except.ok (FS.remove fs p)
  else Except.error PyExc.fileNotFoundError

/-- The message of the `Exception` raised on line 149 of the source. -/
def fail_exception_text : String :=
  "System.Exception column 0: MA (unknown column name)"

/-- Lines 137-149 of the source, the tail of the `try` block once the body has
been written: `file_path = temp_file.name`, `validation_status =
Data_File(file_path).file_validation()`.  When the status is `True` the code
evaluates the dictionary literal `\x7b"Code": 0, "Message": null, "Warning":
null\x7d` — but `null` is an unbound name, so the evaluation raises
`NameError` instead of returning.  When the status is `False` the code raises
`Exception("System.Exception column 0: MA (unknown column name)")`. -/
def tryBody (file_path : String) : Outcome :=
  let validation_status := Data_File.file_validation file_path
  if validation_status then
    Outcome.raised (PyExc.nameError "null")
  else
    Outcome.raised (PyExc.exception fail_exception_text)

/-- Lines 150-156 of the source: `except Exception as e` logs the failure and
then evaluates the dictionary literal `\x7b"Code": 500, "Message":
"System.Exception column 0: MA (unknown column name)", "Warning": null\x7d`;
its last entry evaluates the unbound name `null`, so the clause raises
`NameError` instead of returning the failure envelope, whatever exception it
caught. -/
def exceptClause (_e : PyExc) : Outcome :=
  Outcome.raised (PyExc.nameError "null")

/-- The `try`/`except Exception`/`finally` shape of the handler (lines
132-158), abstracted over the outcome of the `try` block so that every exit
path — a returned value, or any exception raised inside the body — is covered.
Python semantics: a raised outcome is routed through the `except` clause; the
`finally` clause (`os.unlink(file_path)`) always runs, and an exception raised
by the `finally` clause replaces the pending outcome. -/
def runHandlerCore (out : Outcome) (file_path : String) (fs : FS) :
    Outcome × FS :=
  let afterExcept :=
    match out with
    | Outcome.raised e => exceptClause e
    | Outcome.returned v => Outcome.returned v
  match osUnlink fs file_path with
  | Except.ok fs2 => (afterExcept, fs2)
  | Except.error e2 => (Outcome.raised e2, fs)

/-- Lines 127-158 of the source: the `validation/body` handler.
`tempfile.NamedTemporaryFile(delete=False, suffix=txt_suffix)` creates a fresh
file at `tempPath`; the `try` block writes the request body `byte_data` to it,
closes it, and proceeds as `tryBody`; the `except`/`finally` structure is
`runHandlerCore`.  (The fresh temporary path is made explicit as the
`tempPath` argument; `tempfile` guarantees it is unique per request.) -/
def validation_of_incoming_txt_file (tempPath : String) (byte_data : Bytes)
    (fs : FS) : Outcome × FS :=
  let fs1 := FS.write fs tempPath []
  let fs2 := FS.write fs1 tempPath byte_data
  runHandlerCore (tryBody tempPath) tempPath fs2

/-! ### Helper lemmas -/

theorem startsWithL_iff (n : List Char) :
    ∀ h : List Char, startsWithL n h = true ↔ ∃ r, h = n ++ r := by
  induction n with
  | nil =>
    intro h
    simp [startsWithL]
  | cons a as ih =>
    intro h
    cases h with
    | nil =>
      simp [startsWithL]
    | cons b bs =>
      rw [startsWithL]
      simp only [Bool.and_eq_true, beq_iff_eq, ih bs]
      constructor
      · rintro ⟨rfl, r, rfl⟩
        exact ⟨r, rfl⟩
      · rintro ⟨r, hr⟩
        rw [List.cons_append] at hr
        injection hr with h1 h2
        exact ⟨h1.symm, r, h2⟩

theorem hasSub_iff (n : List Char) :
    ∀ h : List Char, hasSub n h = true ↔ ∃ l r, h = l ++ n ++ r := by
  intro h
  induction h with
  | nil =>
    rw [hasSub, startsWithL_iff]
    constructor
    · rintro ⟨r, hr⟩
      exact ⟨[], r, by simpa using hr⟩
    · rintro ⟨l, r, hr⟩
      have hl : l = [] := by
        cases l with
        | nil => rfl
        | cons x xs => simp at hr
      subst hl
      exact ⟨r, by simpa using hr⟩
  | cons c t ih =>
    rw [hasSub, Bool.or_eq_true, startsWithL_iff, ih]
    constructor
    · rintro (⟨r, hr⟩ | ⟨l, r, hr⟩)
      · exact ⟨[], r, by simpa using hr⟩
      · exact ⟨c :: l, r, by simp [hr]⟩
    · rintro ⟨l, r, hr⟩
      cases l with
      | nil =>
        exact Or.inl ⟨r, by simpa using hr⟩
      | cons x xs =>
        rw [List.cons_append, List.cons_append] at hr
        injection hr with h1 h2
        exact Or.inr ⟨xs, r, by simpa using h2⟩

theorem hasSub_left_append (l n : List Char) : hasSub n (l ++ n) = true :=
  (hasSub_iff n (l ++ n)).mpr ⟨l, [], by simp⟩

theorem hasFile_remove (fs : FS) (p : String) :
    FS.hasFile (FS.remove fs p) p = false := by
  induction fs with
  | nil => rfl
  | cons e t ih =>
    by_cases h : e.1 == p
    · simp only [FS.remove, List.filter_cons, h, Bool.not_true, if_neg,
        Bool.false_eq_true, not_false_eq_true, ite_cond_eq_false]
      exact ih
    · simp only [FS.remove, FS.hasFile, List.filter_cons, h, Bool.not_false,
        if_pos, List.any_cons, Bool.or_eq_false_iff] at ih ⊢
      exact ⟨by simp [h], ih⟩

theorem hasFile_write (fs : FS) (p : String) (c : Bytes) :
    FS.hasFile (FS.write fs p c) p = true := by
  simp [FS.write, FS.hasFile]

theorem readFile_write (fs : FS) (p : String) (c : Bytes) :
    FS.readFile (FS.write fs p c) p = some c := by
  have hp : ((p, c).1 == p) = true := by simp
  simp [FS.readFile, FS.write, List.find?_cons, hp]

theorem osUnlink_write (fs : FS) (p : String) (c : Bytes) :
    osUnlink (FS.write fs p c) p = Except.ok (FS.remove (FS.write fs p c) p) := by
  simp [osUnlink, hasFile_write]

/-! ### The claims -/

/-- C1: the claim states that for every request whose temporary file path
lacks the marker "invalid" the handler returns the envelope
`\x7bCode: 0, Message: null, Warning: null\x7d`.  On the code this fails: the
dictionary literal on lines 143-147 evaluates the unbound identifier `null`,
so at the concrete input below — the marker-free path `/tmp/tmpw1zq9v3c.txt`
with an empty body — `file_validation` is `True` yet the handler raises
`NameError` (re-raised from the `except` clause, whose own return dictionary
also evaluates `null`) instead of returning the pass envelope, and FastAPI
turns the escaped exception into a transport-level 500. -/
theorem C1_pass_path_raises :
    Data_File.file_validation "/tmp/tmpw1zq9v3c.txt" = true ∧
    validation_of_incoming_txt_file "/tmp/tmpw1zq9v3c.txt" [] [] =
      (Outcome.raised (PyExc.nameError "null"), ([] : FS)) :=
  ⟨rfl, rfl⟩

/-- C2: the claim states that for every request whose temporary file path
contains the marker "invalid" the handler returns (without raising) the
body-level envelope `\x7bCode: 500, Message: "System.Exception column 0: MA
(unknown column name)", Warning: null\x7d`.  On the code this fails: line 149
raises `Exception(...)`, the `except` clause catches it, but the failure
envelope literal on lines 152-156 evaluates the unbound identifier `null`, so
at the concrete input below — the path `/tmp/invalidq8.txt`, which contains
the marker — the handler raises `NameError` instead of returning, and the
transport status is an error, not a success. -/
theorem C2_fail_path_raises :
    Data_File.file_validation "/tmp/invalidq8.txt" = false ∧
    validation_of_incoming_txt_file "/tmp/invalidq8.txt" [] [] =
      (Outcome.raised (PyExc.nameError "null"), ([] : FS)) :=
  ⟨rfl, rfl⟩

/-- C3: once the temporary file has been created and written, the file is
absent from the filesystem when the request completes, on every exit path:
the first conjunct covers the `try` block finishing with ANY outcome
(returned value, or any raised exception — which subsumes the pass verdict,
the fail verdict, and an arbitrary unhandled exception in the handler body),
and the second instantiates it to the actual handler.  The `finally` clause
`os.unlink(file_path)` always runs and the freshly written file exists, so
the unlink succeeds and removes it. -/
theorem C3_temp_file_removed (p : String) (b : Bytes) (fs : FS)
    (out : Outcome) :
    FS.hasFile (runHandlerCore out p (FS.write (FS.write fs p []) p b)).2 p
      = false ∧
    FS.hasFile (validation_of_incoming_txt_file p b fs).2 p = false := by
  constructor
  · simp only [runHandlerCore, osUnlink_write]
    exact hasFile_remove _ p
  · simp only [validation_of_incoming_txt_file, runHandlerCore, osUnlink_write]
    exact hasFile_remove _ p

/-- C4 counterexample: the claim states that the release step never raises
and that invoking it on an already-removed (or never-created) file is a
guarded no-op.  The release step of the code is a bare `os.unlink(file_path)`
(line 158): invoked at the concrete path `/tmp/tmp3k1r6p0a.txt` on a
filesystem that does not hold that file, it raises `FileNotFoundError` rather
than being a no-op. -/
theorem C4_counterexample :
    osUnlink [] "/tmp/tmp3k1r6p0a.txt" = Except.error PyExc.fileNotFoundError :=
  rfl

/-- C4 amended: the release step is an unguarded `os.unlink`: invoked when no
file exists at the path (a second invocation, or a handle that was never
created) it raises `FileNotFoundError`; it does not raise on the handler's
own exit paths, because there it runs exactly once, on the file the handler
has just created and written. -/
theorem C4_amended_release (p : String) (b : Bytes) (fs : FS)
    (h : FS.hasFile fs p = false) :
    osUnlink fs p = Except.error PyExc.fileNotFoundError ∧
    osUnlink (FS.write (FS.write fs p []) p b) p =
      Except.ok (FS.remove (FS.write (FS.write fs p []) p b) p) := by
  refine ⟨?_, osUnlink_write _ _ _⟩
  simp [osUnlink, h]

/-- C4 amended, witness at the concrete path `/tmp/tmpj5s2d8qe.txt` on the
empty filesystem with body `[77]`. -/
theorem C4_amended_release_witness :
    FS.hasFile ([] : FS) "/tmp/tmpj5s2d8qe.txt" = false ∧
    (osUnlink [] "/tmp/tmpj5s2d8qe.txt" = Except.error PyExc.fileNotFoundError ∧
     osUnlink (FS.write (FS.write [] "/tmp/tmpj5s2d8qe.txt" [])
         "/tmp/tmpj5s2d8qe.txt" [77]) "/tmp/tmpj5s2d8qe.txt" =
       Except.ok (FS.remove (FS.write (FS.write [] "/tmp/tmpj5s2d8qe.txt" [])
         "/tmp/tmpj5s2d8qe.txt" [77]) "/tmp/tmpj5s2d8qe.txt")) :=
  ⟨rfl, C4_amended_release "/tmp/tmpj5s2d8qe.txt" [77] [] rfl⟩

/-- C5: the validator's verdict is exactly the forbidden-substring predicate:
`file_validation` returns `false` iff the path contains "invalid" as a
contiguous substring (expressed as a decomposition `l ++ "invalid" ++ r` of
the path's characters), and `true` iff it does not.  Purity — no mutation of
the file or of any state — is expressed by the embedding itself:
`Data_File.file_validation` is a function of the path string alone, taking no
filesystem argument. -/
theorem C5_validator_iff_forbidden (p : String) :
    (Data_File.file_validation p = false ↔
      ∃ l r, p.toList = l ++ forbidden_marker.toList ++ r) ∧
    (Data_File.file_validation p = true ↔
      ¬ ∃ l r, p.toList = l ++ forbidden_marker.toList ++ r) := by
  have key := hasSub_iff forbidden_marker.toList p.toList
  by_cases h : hasSub forbidden_marker.toList p.toList = true
  · have hex := key.mp h
    rw [Data_File.file_validation, if_pos h]
    exact ⟨iff_of_true rfl hex,
      iff_of_false (by simp) (not_not_intro hex)⟩
  · have hnex : ¬ ∃ l r, p.toList = l ++ forbidden_marker.toList ++ r :=
      fun hx => h (key.mpr hx)
    rw [Data_File.file_validation, if_neg h]
    exact ⟨iff_of_false (by simp) hnex, iff_of_true rfl hnex⟩

/-- C6: for every path not ending in ".txt", `Data_File.df` fails with the
typed error `HTTPException(500, "Error reading file: File is not a .txt
file")` — an escaped `HTTPException` is rendered by FastAPI as a
transport-level 500 — and in particular returns an error, never a (partial)
table; only ".txt" paths reach the tab-delimited parse branch. -/
theorem C6_non_txt_rejected (p : String) (fs : FS)
    (h : strEndsWith p txt_suffix = false) :
    Data_File.df p fs =
      Except.error (PyExc.httpException 500
        ("Error reading file: " ++ value_error_text)) := by
  simp [Data_File.df, Data_File.dfTry, h]

/-- C6 witness at the concrete non-txt path "report.csv". -/
theorem C6_non_txt_rejected_witness :
    strEndsWith "report.csv" txt_suffix = false ∧
    Data_File.df "report.csv" [] =
      Except.error (PyExc.httpException 500
        ("Error reading file: " ++ value_error_text)) :=
  ⟨rfl, C6_non_txt_rejected "report.csv" [] rfl⟩

/-- C7: the composition endpoint and the table endpoint are deterministic and
input-independent: for any two request bodies each returns the same payload,
namely its fixed template — `template_data` for the composition endpoint and
the single-row table wrapped as `\x7b"data": table_data\x7d` for the table
endpoint. -/
theorem C7_fixed_template_endpoints :
    (∀ b1 b2 : Bytes, process_txt_data b1 = process_txt_data b2) ∧
    (∀ b1 b2 : Bytes,
      process_txt_data_table b1 = process_txt_data_table b2) ∧
    (∀ b : Bytes, process_txt_data b = template_data) ∧
    (∀ b : Bytes, process_txt_data_table b = Json.obj [("data", table_data)]) :=
  ⟨fun _ _ => rfl, fun _ _ => rfl, fun _ => rfl, fun _ => rfl⟩

/-- C8: the validation endpoint's observable outcome — returned value or
escaped exception — depends only on the temporary file's path, never on the
uploaded bytes: two requests that land at the same temporary path finish with
identical outcomes whatever their bodies.  (The verdict inside the handler is
`Data_File.file_validation` applied to the path alone, and the uploaded bytes
are written to the file but never read back or parsed on this path.) -/
theorem C8_verdict_ignores_bytes (p : String) (b1 b2 : Bytes) (fs : FS) :
    (validation_of_incoming_txt_file p b1 fs).1 =
      (validation_of_incoming_txt_file p b2 fs).1 := by
  simp only [validation_of_incoming_txt_file, runHandlerCore, osUnlink_write]

/-- C9 counterexample: the claim states that for every failure in the read
path the user-visible message is a fixed string that does not incorporate the
internal exception's text.  At the concrete input "data.csv" on the empty
filesystem, `Data_File.df` fails and the surfaced `detail` is
"Error reading file: File is not a .txt file", which contains the internal
`ValueError` text "File is not a .txt file" as a substring — the f-string on
line 57 interpolates the caught exception into the response. -/
theorem C9_counterexample_detail_leaks :
    Data_File.df "data.csv" [] =
      Except.error (PyExc.httpException 500
        ("Error reading file: " ++ value_error_text)) ∧
    hasSub value_error_text.toList
      ("Error reading file: " ++ value_error_text).toList = true :=
  ⟨rfl, by decide⟩

/-- C9 amended: for every failure in the read path, the surfaced error is
`HTTPException(500, "Error reading file: " ++ m)` where `m` is the internal
exception's text — the internal text is incorporated into the user-visible
message (only the "Error reading file: " framing is fixed), rather than
decoupled from it. -/
theorem C9_amended_detail_embeds_cause (p : String) (fs : FS) (e : PyExc)
    (h : Data_File.df p fs = Except.error e) :
    ∃ m, Data_File.dfTry p fs = Except.error m ∧
      e = PyExc.httpException 500 ("Error reading file: " ++ m) ∧
      hasSub m.toList ("Error reading file: " ++ m).toList = true := by
  rw [Data_File.df] at h
  cases hd : Data_File.dfTry p fs with
  | ok t =>
    rw [hd] at h
    exact absurd h (by simp)
  | error m =>
    rw [hd] at h
    simp only [Except.error.injEq] at h
    refine ⟨m, rfl, h.symm, ?_⟩
    have happ : ("Error reading file: " ++ m).toList =
        ("Error reading file: ").toList ++ m.toList := by
      simp [String.toList, String.data_append]
    rw [happ]
    exact hasSub_left_append _ _

/-- C9 amended, witness at the concrete failing input "data.csv" on the empty
filesystem. -/
theorem C9_amended_witness :
    Data_File.df "data.csv" [] =
      Except.error (PyExc.httpException 500
        ("Error reading file: " ++ value_error_text)) ∧
    ∃ m, Data_File.dfTry "data.csv" [] = Except.error m ∧
      PyExc.httpException 500 ("Error reading file: " ++ value_error_text) =
        PyExc.httpException 500 ("Error reading file: " ++ m) ∧
      hasSub m.toList ("Error reading file: " ++ m).toList = true :=
  ⟨rfl, C9_amended_detail_embeds_cause "data.csv" [] _ rfl⟩

/-- C10: writing a byte buffer to the temporary store and reading the stored
file back yields exactly that buffer, with no transcoding loss, for the
byte-level read step underlying the tabular reader: `FS.readFile` after
`FS.write` returns the written bytes, and consequently on a ".txt" path the
reader's `try` block hands exactly the written bytes to the tab-delimited
parser. -/
theorem C10_write_read_round_trip (fs : FS) (p : String) (b : Bytes) :
    FS.readFile (FS.write fs p b) p = some b ∧
    (strEndsWith p txt_suffix = true →
      Data_File.dfTry p (FS.write fs p b) = parseTSV b) := by
  refine ⟨readFile_write fs p b, fun h => ?_⟩
  rw [Data_File.dfTry, if_pos h, readFile_write]

/-- C10 witness at the concrete path "/tmp/tmpa1b2.txt" and buffer
`[77, 65, 9, 86, 10]` (the bytes of "MA\tV\n"). -/
theorem C10_write_read_round_trip_witness :
    FS.readFile (FS.write [] "/tmp/tmpa1b2.txt" [77, 65, 9, 86, 10])
      "/tmp/tmpa1b2.txt" = some [77, 65, 9, 86, 10] ∧
    Data_File.dfTry "/tmp/tmpa1b2.txt"
        (FS.write [] "/tmp/tmpa1b2.txt" [77, 65, 9, 86, 10]) =
      parseTSV [77, 65, 9, 86, 10] :=
  ⟨(C10_write_read_round_trip [] "/tmp/tmpa1b2.txt" [77, 65, 9, 86, 10]).1,
   (C10_write_read_round_trip [] "/tmp/tmpa1b2.txt" [77, 65, 9, 86, 10]).2 rfl⟩

end FastAPIEDX

